import Mathlib

/-!
Shallow embedding of the ProteogenomiX tool core: the biomarker evaluator
(src/server/biomarker-engine.ts) and the analysis stage driver found in the
server route registration code.  Sequences and identifiers are JavaScript
strings; they are embedded as Lean `String` values and the character-level
operations work on `String.data : List Char`.
-/

namespace ProteogenomiX

/-- A record of the shape produced by `parseSequenceData`: gene name, protein
name, chromosome identifier and raw sequence string, all JavaScript strings. -/
structure SeqRecord where
  geneName : String
  proteinName : String
  chromosome : String
  sequence : String
deriving DecidableEq

/-- A row of the `biomarkers` table as inserted by the engine or by the demo
fallback in the routes.  Fields that the demo fallback omits are `Option`s
(they are nullable columns in the schema). -/
structure InsertBiomarker where
  analysisId : Int
  name : String
  type : String
  geneName : String
  proteinName : String
  chromosome : Option String
  sequenceLength : Nat
  uniqueAminoAcids : Nat
  hasMotif : Bool
  motifPattern : String
  sequenceData : Option String
  biomarkerScore : String
  significance : Bool
  annotationText : Option String
deriving DecidableEq

/-- JavaScript truthiness test of a string: the empty string is falsy. -/
def jsTruthy (s : String) : Bool := !s.data.isEmpty

/-- JavaScript `toUpperCase` restricted to the ASCII identifiers this code
handles. -/
def jsUpper (s : List Char) : List Char := s.map Char.toUpper

/-- Does `pat` occur at the head of `s`? (substring match at position 0). -/
def startsWith : List Char → List Char → Bool
  | _, [] => true
  | [], _ :: _ => false
  | c :: s, p :: ps => c == p && startsWith s ps

/-- JavaScript `s.replace(pat, '')` for a plain string pattern: remove the
first (leftmost) occurrence of `pat` from `s`; `s` unchanged when `pat` does
not occur. -/
def removeFirst (s pat : List Char) : List Char :=
  match s with
  | [] => []
  | c :: rest =>
    if startsWith (c :: rest) pat then (c :: rest).drop pat.length
    else c :: removeFirst rest pat

/-- One character is alphanumeric in the sense of the regex class
`[^A-Za-z0-9]` used by the engine. -/
def isAlnumChar (c : Char) : Bool :=
  ('A' ≤ c && c ≤ 'Z') || ('a' ≤ c && c ≤ 'z') || ('0' ≤ c && c ≤ '9')

namespace BiomarkerEngine

/-- The GENE segment of `generateBiomarkerName`: all non-alphanumeric
characters stripped, `"UNK"` when the gene name is falsy (empty). -/
def geneCode (geneName : String) : String :=
  if jsTruthy geneName then ⟨geneName.data.filter isAlnumChar⟩ else "UNK"

/-- The LEN segment: `"L"` above 500, `"M"` above 200, else `"S"`. -/
def lengthCategory (sequenceLength : Nat) : String :=
  if sequenceLength > 500 then "L" else if sequenceLength > 200 then "M" else "S"

/-- The MOTIF segment: `"KRS"` exactly when the motif pattern string is the
literal `KR[ST]`, else `"GEN"`. -/
def motifCode (motifPattern : String) : String :=
  if motifPattern = "KR[ST]" then "KRS" else "GEN"

/-- The CHROM segment: `chromosome.replace('chr', '').toUpperCase()` when the
chromosome string is truthy, `"X"` when it is absent or empty.  Note that the
JavaScript `replace` removes the first occurrence of the case-sensitive
substring `"chr"` wherever it occurs, not only as a prefix. -/
def chromCode (chromosome : Option String) : String :=
  match chromosome with
  | none => "X"
  | some c => if jsTruthy c then ⟨jsUpper (removeFirst c.data ['c', 'h', 'r'])⟩ else "X"

/-- `BiomarkerEngine.generateBiomarkerName`: builds
`GENE_MOTIF_LENGTH_CHROMOSOME`. -/
def generateBiomarkerName (geneName proteinName motifPattern : String)
    (sequenceLength : Nat) (chromosome : Option String) : String :=
  geneCode geneName ++ "_" ++ motifCode motifPattern ++ "_"
    ++ lengthCategory sequenceLength ++ "_" ++ chromCode chromosome

/-- Does the regex `KR[ST]` match at the head of `s`? -/
def matchKRSTAt : List Char → Bool
  | 'K' :: 'R' :: c :: _ => c == 'S' || c == 'T'
  | _ => false

/-- Position of the first `KR[ST]` match in `s`, if any. -/
def findKRST : List Char → Option Nat
  | [] => none
  | c :: rest =>
    if matchKRSTAt (c :: rest) then some 0 else (findKRST rest).map (fun i => i + 1)

/-- JavaScript `RegExp.test` for the global regex `/KR[ST]/g`: search starts
at the regex object's `lastIndex`; on a match the `lastIndex` advances past
the match, on failure it resets to 0.  The loop body constructs a fresh regex
object each iteration, so every record is tested with `lastIndex = 0`. -/
def regexTestG (s : List Char) (lastIndex : Nat) : Bool × Nat :=
  match findKRST (s.drop lastIndex) with
  | some i => (true, lastIndex + i + 3)
  | none => (false, 0)

/-- Pure statement of the motif criterion: `s` contains K, R followed by S or
T somewhere. -/
def hasKRST (s : List Char) : Bool := (findKRST s).isSome

/-- `BiomarkerEngine.calculateBiomarkerScore`: accumulate the weight of each
satisfied criterion. -/
def calculateBiomarkerScore (lengthCriteria hasMotif variabilityCriteria
    isNotMitochondrial : Bool) : Nat :=
  let score := 0
  let score := if lengthCriteria then score + 25 else score
  let score := if hasMotif then score + 40 else score
  let score := if variabilityCriteria then score + 25 else score
  let score := if isNotMitochondrial then score + 10 else score
  score

/-- The body of the `for (const seq of sequences)` loop of
`identifyBiomarkers`: evaluates the four criteria on one record and returns
the `InsertBiomarker` row pushed for it, or `none` when the record does not
qualify.  The regex object is created inside the loop, hence tested with
`lastIndex = 0`. -/
def evalRecord (analysisId : Int) (seq : SeqRecord) : Option InsertBiomarker :=
  let sequenceLength := seq.sequence.data.length
  let lengthCriteria : Bool := decide (sequenceLength > 100)
  let hasMotif : Bool := (regexTestG seq.sequence.data 0).fst
  let uniqueAminoAcids := seq.sequence.data.dedup.length
  let variabilityCriteria : Bool := decide (uniqueAminoAcids > 15)
  let isNotMitochondrial : Bool := decide (seq.chromosome ≠ "MT")
  let biomarkerScore := calculateBiomarkerScore lengthCriteria hasMotif
    variabilityCriteria isNotMitochondrial
  let isBiomarker := lengthCriteria && hasMotif && variabilityCriteria
    && isNotMitochondrial
  if isBiomarker then
    some
      { analysisId := analysisId
        name := generateBiomarkerName seq.geneName seq.proteinName "KR[ST]"
          sequenceLength (some seq.chromosome)
        type := "mutation-based"
        geneName := seq.geneName
        proteinName := seq.proteinName
        chromosome := some seq.chromosome
        sequenceLength := sequenceLength
        uniqueAminoAcids := uniqueAminoAcids
        hasMotif := hasMotif
        motifPattern := "KR[ST]"
        sequenceData := some ⟨seq.sequence.data.take 1000⟩
        biomarkerScore := toString biomarkerScore
        significance := true
        annotationText := some
          ("Biomarker identified using proteogenomics analysis. Sequence length: "
            ++ toString sequenceLength ++ ", Unique AAs: "
            ++ toString uniqueAminoAcids ++ ", Contains KR[ST] motif: "
            ++ toString hasMotif) }
  else none

/-- The loop of `identifyBiomarkers`, pushing qualifying rows onto the
`biomarkers` accumulator array in input order. -/
def identifyLoop (analysisId : Int) :
    List SeqRecord → List InsertBiomarker → List InsertBiomarker
  | [], acc => acc
  | s :: rest, acc =>
    match evalRecord analysisId s with
    | some b => identifyLoop analysisId rest (acc ++ [b])
    | none => identifyLoop analysisId rest acc

/-- `BiomarkerEngine.identifyBiomarkers` with the outcome of its try block
made explicit: the whole body (parsing and the record loop) runs inside
`try ... catch`, and `Except.error e` models any exception raised there.  The
catch clause logs and returns the empty array, so the function itself always
returns a list and never propagates an exception. -/
def identifyBiomarkersE (tryOutcome : Except String (List SeqRecord))
    (analysisId : Int) : List InsertBiomarker :=
  match tryOutcome with
  | .error _ => []
  | .ok seqs => identifyLoop analysisId seqs []

/-- `BiomarkerEngine.parseSequenceData`: ignores both data arguments and
returns the two hardcoded example records. -/
def parseSequenceData (proteomicsData genomicsData : String) : List SeqRecord :=
  [ { geneName := "BRCA1"
      proteinName := "BRCA1_protein"
      chromosome := "17"
      sequence := "MKRSTPKRSTKRSTPKRSTKRSTPKRSTKRSTPKRSTKRSTPKRSTKRSTPKRSTKRSTPKRSTKRSTPKRSTKRSTPKRSTKRSTPKRSTPKRSTKRSTPKRSTKRSTPKRSTPKRSTKRSTPKRSTPKRSTPKRSTKRSTPKRSTPKRSTPKRSTPKRSTPKRSTPKRSTPKRSTKRSTKRSTPKRSTKRSTPKRSTKRSTPKRSTPKRSTKRSTPKRSTPKRSTPKRSTKRSTPKRSTPKRSTPKRSTPKRSTPKRSTPKRSTPKRSTPKRSTPKRSTPKRSTPKRSTPKRSTPKRSTPKRSTPKRSTPKRSTPKRSTPKRSTPKRSTPKRSTKRSTKRSTPKRSTKRSTPKRSTKRSTPKRSTPKRSTKRSTPKRSTPKRSTPKRSTKRSTPKRSTPKRSTPKRSTPKRSTPKRSTPKRSTPKRSTPKRSTPKRSTPKRSTPKRSTPKRSTPKRSTPKRSTPKRSTPKRSTPKRSTPKRSTPKRSTKRSTKRSTPKRSTKRSTPKRSTKRSTPKRSTPKRSTKRSTPKRSTPKRSTPKRSTKRSTPKRSTPKRSTPKRSTPKRSTPKRSTPKRSTPKRSTPKRSTPKRSTPKRSTPKRSTPKRSTPKRSTPKRSTPKRSTPKRSTPKRSTPKRSTPKRSTPKRSTKRSTKRSTPKRSTKRSTPKRSTKRSTPKRSTPKRSTKRSTPKRSTPKRSTPKRSTKRSTPKRSTPKRSTPKRSTPKRSTPKRSTPKRSTPKRSTPKRSTPKRSTPKRSTPKRSTPKRSTPKRSTPKRSTPKRSTPKRSTPKRSTPKRSTPKRSTPKRSTKRSTKRSTPKRSTKRSTPKRSTKRSTPKRSTPKRSTKRSTPKRSTPKRSTPKRSTKRSTPKRSTPKRSTPKRSTPKRSTPKRSTPKRSTPKRSTPKRSTPKRSTPKRSTPKRSTPKRSTPKRSTPKRSTPKRSTPKRSTPKRSTPKRSTPKRSTPKRSTKRSTKRSTPKRSTKRSTPKRSTKRSTPKRSTPKRSTKRSTPKRSTPKRSTPKRSTKRSTPKRSTPKRSTPKRSTPKRSTPKRSTPKRSTPKRSTPKRSTPKRSTPKRSTPKRSTPKRSTPKRSTPKRSTPKRSTPKRSTPKRSTPKRSTPKRSTKRSTKRSTPKRSTKRSTPKRSTKRSTPKRSTPKRSTKRSTPKRSTPKRSTPKRSTKRSTPKRSTPKRSTPKRSTPKRSTPKRSTPKRSTPKRSTPKRSTPKRSTPKRSTPKRSTPKRSTPKRSTPKRSTPKRSTPKRSTPKRSTPKRSTPKRSTPKRSTKRSTKRSTPKRSTKRSTPKRSTKRSTPKRSTPKRSTKRSTPKRSTPKRSTPKRSTKRSTPKRSTPKRSTPKRSTPKRSTPKRSTPKRSTPKRSTPKRSTPKRSTPKRSTPKRSTPKRSTPKRSTPKRSTPKRSTPKRSTPKRSTPKRSTPKRSTPKRSTPKRSTKRSTPKRSTKRSTPKRSTKRSTPKRSTPKRSTKRSTPKRSTPKRSTPKRSTKRSTPKRSTPKRSTPKRSTPKRSTPKRSTPKRSTPKRSTPKRSTPKRSTPKRSTPKRSTPKRSTKRSTPKRSTKRSTPKRSTKRSTPKRSTPKRSTKRSTPKRSTPKRSTPKRSTKRSTPKRSTPKRSTPKRSTPKRSTPKRSTPKRSTPKRSTPKRSTPKRSTPKRSTPKRSTPKRSTKRSTPKRSTKRSTPKRSTKRSTPKRSTPKRSTKRSTPKRSTPKRSTPKRSTKRSTPKRSTPKRSTPKRSTPKRSTPKRSTPKRSTPKRSTPKRSTPKRSTPKRSTPKRSTPKRSTPKRSTPKRSTKRSTPKRSTKRSTPKRSTKRSTPKRSTPKRSTKRSTPKRSTPKRSTPKRSTKRSTPKRSTPKRSTPKRSTPKRSTPKRSTPKRSTPKRSTPKRSTPKRSTPKRSTPKRSTPKRSTPKRSTKRSTPKRSTKRSTPKRSTKRSTPKRSTPKRSTKRSTPKRSTPKRSTPKRSTKRSTPKRSTPKRSTPKRSTPKRSTPKRSTPKRSTPKRSTPKRSTPKRSTPKRSTPKRSTPKRSTKRSTPKRSTKRSTPKRSTKRSTPKRSTPKRSTKRSTPKRSTPKRSTPKRSTKRSTPKRSTPKRSTPKRSTPKRSTPKRSTPKRSTPKRSTPKRSTPKRSTPKRSTPKRSTPKRSTKRSTPKRSTKRSTPKRSTKRSTPKRSTPKRSTKRSTPKRSTPKRSTPKRSTKRSTPKRSTPKRSTPKRSTPKRSTPKRSTPKRSTPKRSTPKRSTPKRSTPKRSTPKRSTPKRSTKRSTKRSTPKRSTKRSTPKRSTKRSTPKRSTPKRSTKRSTPKRSTPKRSTPKRSTKRSTPKRSTKRSTPKRSTKRSTPKRSTKRSTPKRSTKRSTPKRSTKRSTPKRSTKRSTPKRSTKRSTPKRSTKRSTKRSTKRSTKRSTPKRSTKRSTKRSTPKRSTKRSTPKRSTKRSTPKRSTKRSTPKRSTPKRSTKRSTPKRSTKRSTPKRSTKRSTKRSTPKRSTKRSTKRSTPKRSTKRSTPKRSTKRSTPKRSTKRSTPKRSTKRSTPKRSTKRSTPKRSTKRSTPKRSTKRSTKRSTPKRSTKRSTKRSTPKRSTKRSTPKRSTKRSTPKRSTKRSTPKRSTKRSTPKRSTKRSTPKRSTKRSTPKRSTKRSTKRSTPKRSTKRSTKRSTPKRSTKRSTPKRSTKRSTPKRSTKRSTPKRSTKRSTPKRSTKRSTPKRSTKRSTPKRSTKRSTKRSTPKRSTKRSTKRSTPKRSTKRSTPKRSTKRSTPKRSTKRSTPKRSTKRSTPKRSTKRSTPKRSTKRSTPKRSTKRSTKRSTPKRSTKRSTKRSTPKRSTKRSTPKRSTKRSTPKRSTKRSTPKRSTKRSTPKRSTKRSTPKRSTKRSTPKRSTKRSTKRSTPKRSTKRSTKRSTPKRSTKRSTPKRSTKRSTPKRSTKRSTPKRSTKRSTPKRSTKRSTPKRSTKRSTPKRSTPKRSTPKRST" },
    { geneName := "TP53"
      proteinName := "TP53_protein"
      chromosome := "17"
      sequence := "MEEPQSDPSVEPPLSQETFSDLWKLLPENNVLSPLPSQAMDDLMLSPDDIEQWFTEDPGPDEAPRMPEAAPPVAPAPAAPTPAAPAPAPSWPLSSSVPSQKTYQGSYGFRLGFLHSGTAKSVTCTYSPALNKMFCQLAKTCPVQLWVDSTPPPGTRVRAMAIYKQSQHMTEVVRRCPHHERCSDSDGLAPPQHLIRVEGNLRVEYLDDRNTFRHSVVVPYEPPEVGSDCTTIHYNYMCNSSCMGGMNRRPILTIITLEDSSGNLLGRNSFEVRVCACPGRDRRTEEENLRKKGEPHHELPPGSTKRALPNNTSSSPQPKKKPLDGEYFTLQIRGRERFEMFRELNEALELKDAQAGKEPGGSRAHSSHLKSKKGQSTSRHKKLMFKTEGPDSD" } ]

/-- `BiomarkerEngine.identifyBiomarkers` on the normal path: parse (the fixed
record set) and run the loop. -/
def identifyBiomarkers (proteomicsData genomicsData : String)
    (analysisId : Int) : List InsertBiomarker :=
  identifyBiomarkersE (Except.ok (parseSequenceData proteomicsData genomicsData))
    analysisId

/-- Index of the first occurrence of `pat` as a contiguous substring of `s`,
if any (an empty `pat` matches at index 0 of any nonempty `s`). -/
def firstOccIdx (s pat : List Char) : Option Nat :=
  match s with
  | [] => none
  | _ :: rest =>
    if startsWith s pat then some 0 else (firstOccIdx rest pat).map (fun i => i + 1)

/-- The CHROM segment as amended: the first occurrence of the case-sensitive
substring `"chr"`, wherever it occurs in the identifier, is removed (splicing
the text around the first match index), the remainder is upper-cased, and the
segment is `"X"` when the chromosome is absent or empty. -/
def chromSpecAmended (chromosome : Option String) : String :=
  match chromosome with
  | none => "X"
  | some c =>
    if c.data = [] then "X"
    else
      match firstOccIdx c.data ['c', 'h', 'r'] with
      | some i => ⟨jsUpper (c.data.take i ++ c.data.drop (i + 3))⟩
      | none => ⟨jsUpper c.data⟩

/-- Fifteen distinct characters, none of them K, R, S or T. -/
def alpha15 : List Char :=
  ['A', 'C', 'D', 'E', 'F', 'G', 'H', 'I', 'L', 'M', 'N', 'P', 'Q', 'V', 'W']

/-- A record whose sequence is too short to qualify (length 3). -/
def shortRec : SeqRecord :=
  { geneName := "GATA1", proteinName := "GATA1_protein", chromosome := "1",
    sequence := "KRS" }

/-- A small qualifying sequence: length 104, 18 distinct characters, motif KRT
at the head. -/
def qlist : List Char := (['K', 'R', 'T'] ++ alpha15) ++ List.replicate 86 'A'

/-- A small qualifying record on chromosome 7. -/
def qrec : SeqRecord :=
  { geneName := "TP53", proteinName := "TP53_protein", chromosome := "7",
    sequence := ⟨qlist⟩ }

/-- A qualifying sequence with the attributes of the worked example: length
1863, motif present, 18 distinct symbols. -/
def wlist1863 : List Char := (['K', 'R', 'S'] ++ alpha15) ++ List.replicate 1845 'P'

/-- A record with the attributes of the worked example: gene BRCA1,
chromosome 17, sequence length 1863, motif present, 18 distinct symbols. -/
def wrec1863 : SeqRecord :=
  { geneName := "BRCA1", proteinName := "BRCA1_protein", chromosome := "17",
    sequence := ⟨wlist1863⟩ }

/-- A second small qualifying record, used to evaluate the stored-sequence
fields at a concrete input. -/
def rec104 : SeqRecord :=
  { geneName := "EGFR", proteinName := "EGFR_protein", chromosome := "7",
    sequence := ⟨(['K', 'R', 'S'] ++ alpha15) ++ List.replicate 86 'A'⟩ }

/-- The row that `identifyBiomarkers` emits for `rec104`. -/
def bRec104 : InsertBiomarker :=
  { analysisId := 1
    name := "EGFR_KRS_S_7"
    type := "mutation-based"
    geneName := "EGFR"
    proteinName := "EGFR_protein"
    chromosome := some "7"
    sequenceLength := 104
    uniqueAminoAcids := 18
    hasMotif := true
    motifPattern := "KR[ST]"
    sequenceData := some ⟨rec104.sequence.data.take 1000⟩
    biomarkerScore := "100"
    significance := true
    annotationText := some
      ("Biomarker identified using proteogenomics analysis. Sequence length: "
        ++ toString 104 ++ ", Unique AAs: " ++ toString 18
        ++ ", Contains KR[ST] motif: " ++ toString true) }

end BiomarkerEngine

namespace Routes

/-- A JSON-like value as used by the `data` payloads of the sample results. -/
inductive JsonVal where
  | num (n : Int)
  | str (s : String)
  | strArr (xs : List String)
deriving DecidableEq

/-- A row of the `results` table as inserted by the routes. -/
structure InsertResult where
  analysisId : Int
  resultType : String
  data : List (String × JsonVal)
deriving DecidableEq

/-- One write issued against the storage collaborator while an analysis is
being stepped. -/
inductive StoreOp where
  | updateStatus (status : String)
  | updateProgress (progress : Nat) (currentStep : String)
  | createBiomarker (b : InsertBiomarker)
  | createResult (r : InsertResult)

/-- The mutable columns of an `analyses` row that the stepping logic touches,
with the schema defaults for a freshly created row: status `queued`,
progress 0, current step `preprocessing`. -/
structure AnalysisState where
  status : String
  progress : Nat
  currentStep : String
deriving DecidableEq

/-- A freshly created analysis row (schema column defaults). -/
def initialAnalysis : AnalysisState :=
  { status := "queued", progress := 0, currentStep := "preprocessing" }

/-- Effect of one storage write on the analysis row it belongs to. -/
def applyOp (st : AnalysisState) : StoreOp → AnalysisState
  | .updateStatus s => { st with status := s }
  | .updateProgress p step => { st with progress := p, currentStep := step }
  | .createBiomarker _ => st
  | .createResult _ => st

/-- The hardcoded demonstration biomarker inserted by the catch clause of the
terminal stage (fields not present in the object literal are `none`). -/
def demoMarker (analysisId : Int) : InsertBiomarker :=
  { analysisId := analysisId
    name := "BRCA1_KRS_L_17"
    type := "mutation-based"
    geneName := "BRCA1"
    proteinName := "BRCA1_protein"
    chromosome := none
    sequenceLength := 1863
    uniqueAminoAcids := 18
    hasMotif := true
    motifPattern := "KR[ST]"
    sequenceData := none
    biomarkerScore := "100"
    significance := true
    annotationText := none }

/-- The fixed sample results created at the terminal stage. -/
def sampleResults (analysisId : Int) : List InsertResult :=
  [ { analysisId := analysisId
      resultType := "volcano_plot"
      data := [("type", .str "volcano"), ("proteins", .num 50),
               ("significant", .num 12)] },
    { analysisId := analysisId
      resultType := "heatmap"
      data := [("type", .str "heatmap"), ("samples", .num 8),
               ("biomarkers", .num 10)] },
    { analysisId := analysisId
      resultType := "mutation_frequency"
      data := [("type", .str "bar"),
               ("genes", .strArr ["BRCA1", "TP53", "EGFR", "KRAS", "PIK3CA"])] } ]

/-- The biomarker rows persisted at the terminal stage: the rows returned by
`identifyBiomarkers` when its invocation (and the subsequent insert loop)
succeeds, the single demonstration row when it throws.  `evalOutcome` is the
outcome of the surrounding `try` block. -/
def terminalBiomarkers (analysisId : Int)
    (evalOutcome : Except String (List InsertBiomarker)) : List InsertBiomarker :=
  match evalOutcome with
  | .ok biomarkers => biomarkers
  | .error _ => [demoMarker analysisId]

/-- The storage writes of the k-th timer callback (k = 0,1,2,3) scheduled by
the analysis-creation route.  The fourth callback performs the terminal-stage
effects; `evalOutcome` models whether the evaluator invocation threw. -/
def stepOps (analysisId : Int)
    (evalOutcome : Except String (List InsertBiomarker)) : Nat → List StoreOp
  | 0 => [.updateStatus "running", .updateProgress 25 "preprocessing"]
  | 1 => [.updateProgress 65 "mutation_analysis"]
  | 2 => [.updateProgress 85 "biomarker_identification"]
  | 3 =>
    [.updateProgress 100 "results_generation", .updateStatus "completed"]
      ++ (terminalBiomarkers analysisId evalOutcome).map .createBiomarker
      ++ (sampleResults analysisId).map .createResult
  | _ + 4 => []

/-- The full write trace of one analysis run: the four timer callbacks fire
once each, in nesting order. -/
def runAnalysis (analysisId : Int)
    (evalOutcome : Except String (List InsertBiomarker)) : List StoreOp :=
  stepOps analysisId evalOutcome 0 ++ stepOps analysisId evalOutcome 1
    ++ stepOps analysisId evalOutcome 2 ++ stepOps analysisId evalOutcome 3

/-- The analysis row after the first `n` timer callbacks have run. -/
def stateAfter (analysisId : Int)
    (evalOutcome : Except String (List InsertBiomarker)) (n : Nat) : AnalysisState :=
  ((List.range n).map (stepOps analysisId evalOutcome)).flatten.foldl applyOp
    initialAnalysis

/-- The progress/stage pairs written by a trace, in order. -/
def progressWrites (ops : List StoreOp) : List (Nat × String) :=
  ops.filterMap fun op =>
    match op with
    | .updateProgress p s => some (p, s)
    | _ => none

/-- The status values written by a trace, in order. -/
def statusWrites (ops : List StoreOp) : List String :=
  ops.filterMap fun op =>
    match op with
    | .updateStatus s => some s
    | _ => none

/-- The biomarker rows inserted by a trace, in order. -/
def biomarkerWrites (ops : List StoreOp) : List InsertBiomarker :=
  ops.filterMap fun op =>
    match op with
    | .createBiomarker b => some b
    | _ => none

/-- The result rows inserted by a trace, in order. -/
def resultWrites (ops : List StoreOp) : List InsertResult :=
  ops.filterMap fun op =>
    match op with
    | .createResult r => some r
    | _ => none

/-- Is this write the transition to status `completed`? -/
def isCompletedWrite : StoreOp → Bool
  | .updateStatus s => s == "completed"
  | _ => false

/-- Is this write a persistence of a biomarker or a result artifact? -/
def isInsertWrite : StoreOp → Bool
  | .createBiomarker _ => true
  | .createResult _ => true
  | _ => false

/-- The ordering property claimed for the terminal stage: every persistence
write precedes every write of status `completed` (the analysis becomes
`completed` only after the candidates and artifacts are stored). -/
def completedAfterInserts : List StoreOp → Bool
  | [] => true
  | op :: rest =>
    (if isCompletedWrite op then rest.all (fun o => !isInsertWrite o) else true)
      && completedAfterInserts rest

end Routes

end ProteogenomiX

namespace ProteogenomiX

namespace BiomarkerEngine

theorem regexTestG_fst_zero (s : List Char) : (regexTestG s 0).fst = hasKRST s := by
  unfold regexTestG hasKRST
  cases h : findKRST (s.drop 0) <;> simp_all

theorem identifyLoop_eq_filterMap (analysisId : Int) (seqs : List SeqRecord)
    (acc : List InsertBiomarker) :
    identifyLoop analysisId seqs acc = acc ++ seqs.filterMap (evalRecord analysisId) := by
  induction seqs generalizing acc with
  | nil => simp [identifyLoop]
  | cons s rest ih =>
    cases h : evalRecord analysisId s <;> simp [identifyLoop, h, ih]

theorem identifyBiomarkersE_ok (analysisId : Int) (seqs : List SeqRecord) :
    identifyBiomarkersE (Except.ok seqs) analysisId
      = seqs.filterMap (evalRecord analysisId) := by
  simp [identifyBiomarkersE, identifyLoop_eq_filterMap]

theorem evalRecord_isSome_iff (analysisId : Int) (r : SeqRecord) :
    (evalRecord analysisId r).isSome = true ↔
      (100 < r.sequence.data.length ∧ hasKRST r.sequence.data = true
        ∧ 15 < r.sequence.data.dedup.length ∧ r.chromosome ≠ "MT") := by
  simp only [evalRecord, regexTestG_fst_zero]
  split <;> simp_all

theorem evalRecord_eq_some (analysisId : Int) (r : SeqRecord)
    (h1 : 100 < r.sequence.data.length) (h2 : hasKRST r.sequence.data = true)
    (h3 : 15 < r.sequence.data.dedup.length) (h4 : r.chromosome ≠ "MT") :
    evalRecord analysisId r = some
      { analysisId := analysisId
        name := generateBiomarkerName r.geneName r.proteinName "KR[ST]"
          r.sequence.data.length (some r.chromosome)
        type := "mutation-based"
        geneName := r.geneName
        proteinName := r.proteinName
        chromosome := some r.chromosome
        sequenceLength := r.sequence.data.length
        uniqueAminoAcids := r.sequence.data.dedup.length
        hasMotif := true
        motifPattern := "KR[ST]"
        sequenceData := some ⟨r.sequence.data.take 1000⟩
        biomarkerScore := "100"
        significance := true
        annotationText := some
          ("Biomarker identified using proteogenomics analysis. Sequence length: "
            ++ toString r.sequence.data.length ++ ", Unique AAs: "
            ++ toString r.sequence.data.dedup.length ++ ", Contains KR[ST] motif: "
            ++ toString true) } := by
  simp only [evalRecord, regexTestG_fst_zero]
  have h1' : 100 < r.sequence.length := h1
  simp [h1', h2, h3, h4, calculateBiomarkerScore]
  all_goals decide

theorem dedup_replicate_succ (c : Char) (n : Nat) :
    (List.replicate (n + 1) c).dedup = [c] := by
  induction n with
  | zero => rfl
  | succ n ih =>
    rw [List.replicate_succ, List.dedup_cons_of_mem (by simp [List.mem_replicate])]
    exact ih

theorem length_dedup_append_replicate_of_not_mem (l : List Char) (c : Char)
    (n : Nat) (hce : c ∉ l) (hnd : l.Nodup) :
    (l ++ List.replicate (n + 1) c).dedup.length = l.length + 1 := by
  induction l with
  | nil => simp [dedup_replicate_succ]
  | cons x l ih =>
    rw [List.nodup_cons] at hnd
    have hxc : x ≠ c := fun h => hce (h ▸ List.mem_cons_self x l)
    have hx : x ∉ l ++ List.replicate (n + 1) c := by
      simp only [List.mem_append, List.mem_replicate]
      rintro (h | ⟨-, h⟩)
      · exact hnd.1 h
      · exact hxc h
    rw [List.cons_append, List.dedup_cons_of_not_mem hx, List.length_cons,
      ih (fun h => hce (List.mem_cons_of_mem x h)) hnd.2, List.length_cons]

theorem length_dedup_append_replicate_of_mem (l : List Char) (c : Char)
    (n : Nat) (hce : c ∈ l) (hnd : l.Nodup) :
    (l ++ List.replicate (n + 1) c).dedup.length = l.length := by
  induction l with
  | nil => cases hce
  | cons x l ih =>
    rw [List.nodup_cons] at hnd
    by_cases hxc : x = c
    · subst hxc
      have hx : x ∈ l ++ List.replicate (n + 1) x := by
        simp [List.mem_append, List.mem_replicate]
      rw [List.cons_append, List.dedup_cons_of_mem hx,
        length_dedup_append_replicate_of_not_mem l x n hnd.1 hnd.2, List.length_cons]
    · have hcl : c ∈ l := by
        cases hce with
        | head => exact absurd rfl hxc
        | tail _ h => exact h
      have hx : x ∉ l ++ List.replicate (n + 1) c := by
        simp only [List.mem_append, List.mem_replicate]
        rintro (h | ⟨-, h⟩)
        · exact hnd.1 h
        · exact hxc h
      rw [List.cons_append, List.dedup_cons_of_not_mem hx, List.length_cons,
        ih hcl hnd.2, List.length_cons]

theorem wlist1863_length : wlist1863.length = 1863 := by
  rw [wlist1863, List.length_append, List.length_append, List.length_replicate]
  decide

theorem wlist1863_dedup_length : wlist1863.dedup.length = 18 := by
  rw [wlist1863, show (1845 : Nat) = 1844 + 1 from by norm_num,
    length_dedup_append_replicate_of_mem _ _ _ (by decide) (by decide)]
  decide

theorem hasKRST_wlist1863 : hasKRST wlist1863 = true := rfl

theorem identifyBiomarkersE_singleton (analysisId : Int) (r : SeqRecord) :
    identifyBiomarkersE (Except.ok [r]) analysisId
      = (evalRecord analysisId r).toList := by
  cases h : evalRecord analysisId r <;>
    simp [identifyBiomarkersE, identifyLoop, h]

/-- C1: a record in the input batch produces a BiomarkerCandidate if and only
if all four boolean criteria hold (length > 100, KR[ST] motif present, more
than 15 distinct characters, chromosome not "MT"); in particular a record
whose sequence has length at most 100 never produces a candidate. -/
theorem c1_candidate_iff_all_four_criteria (analysisId : Int) (r : SeqRecord) :
    (identifyBiomarkersE (Except.ok [r]) analysisId ≠ [] ↔
      (100 < r.sequence.data.length ∧ hasKRST r.sequence.data = true
        ∧ 15 < r.sequence.data.dedup.length ∧ r.chromosome ≠ "MT"))
    ∧ (r.sequence.data.length ≤ 100 →
        identifyBiomarkersE (Except.ok [r]) analysisId = []) := by
  constructor
  · rw [identifyBiomarkersE_singleton, ← evalRecord_isSome_iff analysisId r]
    cases h : evalRecord analysisId r <;> simp [h]
  · intro hle
    rw [identifyBiomarkersE_singleton]
    cases h : evalRecord analysisId r with
    | none => rfl
    | some b =>
      have hq := (evalRecord_isSome_iff analysisId r).1 (by simp [h])
      exact absurd hq.1 (Nat.not_lt.mpr hle)

/-- C1 witness: a length-3 sequence yields no candidate. -/
theorem c1_witness : identifyBiomarkersE (Except.ok [shortRec]) 5 = [] :=
  (c1_candidate_iff_all_four_criteria 5 shortRec).2 (by decide)

/-- C2: the score is the sum of the weights of the satisfied criteria
(25, 40, 25, 10), and a record satisfying all four criteria produces exactly
one candidate, with score "100" and significance true. -/
theorem c2_full_score_candidate (analysisId : Int) (r : SeqRecord)
    (h1 : 100 < r.sequence.data.length) (h2 : hasKRST r.sequence.data = true)
    (h3 : 15 < r.sequence.data.dedup.length) (h4 : r.chromosome ≠ "MT") :
    (∀ b1 b2 b3 b4 : Bool,
      calculateBiomarkerScore b1 b2 b3 b4
        = (if b1 = true then 25 else 0) + (if b2 = true then 40 else 0)
          + (if b3 = true then 25 else 0) + (if b4 = true then 10 else 0))
    ∧ (identifyBiomarkersE (Except.ok [r]) analysisId).length = 1
    ∧ ∀ b ∈ identifyBiomarkersE (Except.ok [r]) analysisId,
        b.biomarkerScore = "100" ∧ b.significance = true := by
  have hev := evalRecord_eq_some analysisId r h1 h2 h3 h4
  refine ⟨?_, ?_, ?_⟩
  · intro b1 b2 b3 b4
    cases b1 <;> cases b2 <;> cases b3 <;> cases b4 <;> rfl
  · rw [identifyBiomarkersE_singleton, hev]
    rfl
  · intro b hb
    rw [identifyBiomarkersE_singleton, hev] at hb
    simp only [Option.toList_some, List.mem_singleton] at hb
    subst hb
    exact ⟨rfl, rfl⟩

set_option maxRecDepth 8000 in
/-- C2 witness: the concrete qualifying record `qrec` produces exactly one
candidate. -/
theorem c2_witness : (identifyBiomarkersE (Except.ok [qrec]) 1).length = 1 :=
  (c2_full_score_candidate 1 qrec (by decide) (by decide) (by decide)
    (by decide)).2.1

/-- C6: when the body of `identifyBiomarkers` raises, the catch clause
returns the empty list: no partial results and no propagated exception (the
embedded function is total, so the call itself cannot throw). -/
theorem c6_error_yields_empty_list (e : String) (analysisId : Int) :
    identifyBiomarkersE (Except.error e) analysisId = [] := rfl

/-- C7: a record with gene name BRCA1, chromosome 17, sequence length 1863,
the motif present and 18 distinct symbols produces the single candidate named
BRCA1_KRS_L_17 with score "100" and significance true. -/
theorem c7_brca1_example (analysisId : Int) (r : SeqRecord)
    (hg : r.geneName = "BRCA1") (hc : r.chromosome = "17")
    (hl : r.sequence.data.length = 1863) (hm : hasKRST r.sequence.data = true)
    (hu : r.sequence.data.dedup.length = 18) :
    ∃ b, identifyBiomarkersE (Except.ok [r]) analysisId = [b]
      ∧ b.name = "BRCA1_KRS_L_17" ∧ b.biomarkerScore = "100"
      ∧ b.significance = true := by
  have h1 : 100 < r.sequence.data.length := by omega
  have h3 : 15 < r.sequence.data.dedup.length := by omega
  have h4 : r.chromosome ≠ "MT" := by rw [hc]; decide
  have hev := evalRecord_eq_some analysisId r h1 hm h3 h4
  rw [identifyBiomarkersE_singleton, hev]
  refine ⟨_, rfl, ?_, rfl, rfl⟩
  show generateBiomarkerName r.geneName r.proteinName "KR[ST]"
    r.sequence.data.length (some r.chromosome) = "BRCA1_KRS_L_17"
  rw [hg, hc, hl]
  rfl

/-- C7 witness: the concrete record `wrec1863` has the example's attributes
and produces the candidate BRCA1_KRS_L_17. -/
theorem c7_witness :
    ∃ b, identifyBiomarkersE (Except.ok [wrec1863]) 3 = [b]
      ∧ b.name = "BRCA1_KRS_L_17" ∧ b.biomarkerScore = "100"
      ∧ b.significance = true :=
  c7_brca1_example 3 wrec1863 rfl rfl wlist1863_length hasKRST_wlist1863
    wlist1863_dedup_length

/-- C9: the evaluator is deterministic and carries no state between records
of a batch: the output is the record-wise `filterMap` of a pure per-record
function, batches evaluate homomorphically over concatenation, and every
record is motif-tested with a fresh regex (`lastIndex = 0`), which agrees
with the pure containment test. -/
theorem c9_deterministic_stateless (analysisId : Int)
    (seqs l1 l2 : List SeqRecord) (s : List Char) :
    identifyBiomarkersE (Except.ok seqs) analysisId
        = seqs.filterMap (evalRecord analysisId)
      ∧ identifyBiomarkersE (Except.ok (l1 ++ l2)) analysisId
        = identifyBiomarkersE (Except.ok l1) analysisId
          ++ identifyBiomarkersE (Except.ok l2) analysisId
      ∧ (regexTestG s 0).fst = hasKRST s := by
  refine ⟨identifyBiomarkersE_ok analysisId seqs, ?_, regexTestG_fst_zero s⟩
  simp [identifyBiomarkersE_ok, List.filterMap_append]

/-- C10: every emitted candidate stores as `sequenceData` exactly the first
min(1000, length) characters of its record's sequence, while
`sequenceLength` records the full original length. -/
theorem c10_sequence_truncation (analysisId : Int) (seqs : List SeqRecord)
    (b : InsertBiomarker)
    (hb : b ∈ identifyBiomarkersE (Except.ok seqs) analysisId) :
    ∃ r ∈ seqs, b.sequenceData = some ⟨r.sequence.data.take 1000⟩
      ∧ b.sequenceLength = r.sequence.data.length
      ∧ (⟨r.sequence.data.take 1000⟩ : String).data.length
          = min 1000 r.sequence.data.length := by
  rw [identifyBiomarkersE_ok] at hb
  obtain ⟨r, hr, he⟩ := List.mem_filterMap.1 hb
  refine ⟨r, hr, ?_⟩
  simp only [evalRecord] at he
  split at he
  · rw [Option.some.injEq] at he
    subst he
    exact ⟨rfl, rfl, by simp [List.length_take]⟩
  · exact absurd he (by simp)

set_option maxRecDepth 80000 in
/-- C10 witness: the concrete record `rec104` emits the row `bRec104`, whose
stored sequence is its `take 1000` and whose recorded length is 104. -/
theorem c10_witness :
    ∃ r ∈ [rec104], bRec104.sequenceData = some ⟨r.sequence.data.take 1000⟩
      ∧ bRec104.sequenceLength = r.sequence.data.length
      ∧ (⟨r.sequence.data.take 1000⟩ : String).data.length
          = min 1000 r.sequence.data.length :=
  c10_sequence_truncation 1 [rec104] bRec104 (by decide)

/-- C8 counterexample: the CHROM segment of "CHR17" is "CHR17" (the
uppercase prefix is not stripped, because the JavaScript replace is
case-sensitive), an interior lowercase "chr" IS removed ("Xchr1" becomes
"X1", not "XCHR1"), and an empty chromosome also maps to "X". -/
theorem c8_counterexample :
    chromCode (some "CHR17") = "CHR17" ∧ ("CHR17" : String) ≠ "17"
      ∧ chromCode (some "Xchr1") = "X1" ∧ ("X1" : String) ≠ "XCHR1"
      ∧ chromCode (some "") = "X" :=
  ⟨by decide, by decide, by decide, by decide, by decide⟩

theorem removeFirst_eq_splice (s pat : List Char) :
    removeFirst s pat = match firstOccIdx s pat with
      | some i => s.take i ++ s.drop (i + pat.length)
      | none => s := by
  induction s with
  | nil => simp [removeFirst, firstOccIdx]
  | cons c rest ih =>
    rw [removeFirst, firstOccIdx]
    by_cases h : startsWith (c :: rest) pat = true
    · simp [h]
    · rw [if_neg h, if_neg h]
      cases hf : firstOccIdx rest pat with
      | none => simp [hf, ih]
      | some i =>
        have harith : i + 1 + pat.length = i + pat.length + 1 := by omega
        simp [hf, ih, harith, List.take_succ_cons, List.drop_succ_cons]

/-- C8 amended: the CHROM segment equals the chromosome identifier with the
first occurrence of the case-sensitive substring "chr" — wherever it occurs,
not only as a prefix — spliced out and the remainder upper-cased; it is "X"
when the chromosome is absent or empty, and an identifier without a lowercase
"chr" (such as "CHR17") is only upper-cased. -/
theorem c8_amended_chrom_segment (c : Option String) :
    chromCode c = chromSpecAmended c := by
  cases c with
  | none => rfl
  | some s =>
    simp only [chromCode, chromSpecAmended, jsTruthy]
    by_cases h : s.data = []
    · simp [h]
    · simp only [h, List.isEmpty_iff, if_neg h, Bool.not_eq_true]
      rw [removeFirst_eq_splice]
      cases hf : firstOccIdx s.data ['c', 'h', 'r'] <;>
        simp [hf, List.isEmpty_iff, h]

end BiomarkerEngine

end ProteogenomiX

namespace ProteogenomiX

namespace Routes

theorem progressWrites_append (l1 l2 : List StoreOp) :
    progressWrites (l1 ++ l2) = progressWrites l1 ++ progressWrites l2 := by
  simp [progressWrites, List.filterMap_append]

theorem statusWrites_append (l1 l2 : List StoreOp) :
    statusWrites (l1 ++ l2) = statusWrites l1 ++ statusWrites l2 := by
  simp [statusWrites, List.filterMap_append]

theorem biomarkerWrites_append (l1 l2 : List StoreOp) :
    biomarkerWrites (l1 ++ l2) = biomarkerWrites l1 ++ biomarkerWrites l2 := by
  simp [biomarkerWrites, List.filterMap_append]

theorem resultWrites_append (l1 l2 : List StoreOp) :
    resultWrites (l1 ++ l2) = resultWrites l1 ++ resultWrites l2 := by
  simp [resultWrites, List.filterMap_append]

theorem progressWrites_map_cb (l : List InsertBiomarker) :
    progressWrites (l.map StoreOp.createBiomarker) = [] := by
  induction l with
  | nil => rfl
  | cons b l ih => simp [progressWrites, List.filterMap_cons, ih]

theorem progressWrites_map_cr (l : List InsertResult) :
    progressWrites (l.map StoreOp.createResult) = [] := by
  induction l with
  | nil => rfl
  | cons r l ih => simp [progressWrites, List.filterMap_cons, ih]

theorem statusWrites_map_cb (l : List InsertBiomarker) :
    statusWrites (l.map StoreOp.createBiomarker) = [] := by
  induction l with
  | nil => rfl
  | cons b l ih => simp [statusWrites, List.filterMap_cons, ih]

theorem statusWrites_map_cr (l : List InsertResult) :
    statusWrites (l.map StoreOp.createResult) = [] := by
  induction l with
  | nil => rfl
  | cons r l ih => simp [statusWrites, List.filterMap_cons, ih]

theorem biomarkerWrites_map_cb (l : List InsertBiomarker) :
    biomarkerWrites (l.map StoreOp.createBiomarker) = l := by
  induction l with
  | nil => rfl
  | cons b l ih => simpa [biomarkerWrites, List.filterMap_cons] using ih

theorem biomarkerWrites_map_cr (l : List InsertResult) :
    biomarkerWrites (l.map StoreOp.createResult) = [] := by
  induction l with
  | nil => rfl
  | cons r l ih => simp [biomarkerWrites, List.filterMap_cons, ih]

theorem resultWrites_map_cb (l : List InsertBiomarker) :
    resultWrites (l.map StoreOp.createBiomarker) = [] := by
  induction l with
  | nil => rfl
  | cons b l ih => simp [resultWrites, List.filterMap_cons, ih]

theorem resultWrites_map_cr (l : List InsertResult) :
    resultWrites (l.map StoreOp.createResult) = l := by
  induction l with
  | nil => rfl
  | cons r l ih => simpa [resultWrites, List.filterMap_cons] using ih

theorem foldl_applyOp_map_cb (l : List InsertBiomarker) (st : AnalysisState) :
    (l.map StoreOp.createBiomarker).foldl applyOp st = st := by
  induction l generalizing st with
  | nil => rfl
  | cons b l ih =>
    simp only [List.map_cons, List.foldl_cons, applyOp]
    exact ih st

theorem foldl_applyOp_map_cr (l : List InsertResult) (st : AnalysisState) :
    (l.map StoreOp.createResult).foldl applyOp st = st := by
  induction l generalizing st with
  | nil => rfl
  | cons r l ih =>
    simp only [List.map_cons, List.foldl_cons, applyOp]
    exact ih st

theorem all_isInsertWrite_map_cb (l : List InsertBiomarker) :
    (l.map StoreOp.createBiomarker).all isInsertWrite = true := by
  induction l with
  | nil => rfl
  | cons b l ih => simp [isInsertWrite, ih]

theorem all_isInsertWrite_map_cr (l : List InsertResult) :
    (l.map StoreOp.createResult).all isInsertWrite = true := by
  induction l with
  | nil => rfl
  | cons r l ih => simp [isInsertWrite, ih]

theorem runAnalysis_eq (analysisId : Int)
    (ev : Except String (List InsertBiomarker)) :
    runAnalysis analysisId ev
      = [StoreOp.updateStatus "running", StoreOp.updateProgress 25 "preprocessing",
         StoreOp.updateProgress 65 "mutation_analysis",
         StoreOp.updateProgress 85 "biomarker_identification",
         StoreOp.updateProgress 100 "results_generation",
         StoreOp.updateStatus "completed"]
        ++ (terminalBiomarkers analysisId ev).map StoreOp.createBiomarker
        ++ (sampleResults analysisId).map StoreOp.createResult := by
  simp [runAnalysis, stepOps]

theorem range_four_flatten (analysisId : Int)
    (ev : Except String (List InsertBiomarker)) :
    ((List.range 4).map (stepOps analysisId ev)).flatten
      = runAnalysis analysisId ev := by
  have h4 : List.range 4 = [0, 1, 2, 3] := by decide
  rw [h4]
  simp [runAnalysis, List.append_assoc]

theorem stateAfter_four (analysisId : Int)
    (ev : Except String (List InsertBiomarker)) :
    stateAfter analysisId ev 4
      = { status := "completed", progress := 100,
          currentStep := "results_generation" } := by
  rw [stateAfter, range_four_flatten, runAnalysis_eq]
  rw [List.foldl_append, List.foldl_append, foldl_applyOp_map_cb,
    foldl_applyOp_map_cr]
  rfl

/-- C3: an analysis created in status queued reaches completed after exactly
4 timer steps; the four steps write exactly the progress/stage pairs
(25, preprocessing), (65, mutation_analysis), (85, biomarker_identification),
(100, results_generation), one per step, in that order, with strictly
increasing progress and no stage repeated; before the fourth step the status
is never completed. -/
theorem c3_stage_progression (analysisId : Int)
    (ev : Except String (List InsertBiomarker)) :
    ((List.range 4).map fun k => progressWrites (stepOps analysisId ev k))
        = [[(25, "preprocessing")], [(65, "mutation_analysis")],
           [(85, "biomarker_identification")], [(100, "results_generation")]]
      ∧ progressWrites (runAnalysis analysisId ev)
        = [(25, "preprocessing"), (65, "mutation_analysis"),
           (85, "biomarker_identification"), (100, "results_generation")]
      ∧ List.Chain' (· < ·)
          ((progressWrites (runAnalysis analysisId ev)).map Prod.fst)
      ∧ ((progressWrites (runAnalysis analysisId ev)).map Prod.snd).Nodup
      ∧ stateAfter analysisId ev 0 = initialAnalysis
      ∧ (stateAfter analysisId ev 0).status = "queued"
      ∧ (stateAfter analysisId ev 1).status = "running"
      ∧ (stateAfter analysisId ev 2).status = "running"
      ∧ (stateAfter analysisId ev 3).status = "running"
      ∧ (stateAfter analysisId ev 4).status = "completed"
      ∧ (stateAfter analysisId ev 4).progress = 100
      ∧ (stateAfter analysisId ev 4).currentStep = "results_generation" := by
  have h3 : progressWrites (stepOps analysisId ev 3)
      = [(100, "results_generation")] := by
    rw [show stepOps analysisId ev 3
        = [StoreOp.updateProgress 100 "results_generation",
           StoreOp.updateStatus "completed"]
          ++ (terminalBiomarkers analysisId ev).map StoreOp.createBiomarker
          ++ (sampleResults analysisId).map StoreOp.createResult from rfl]
    rw [progressWrites_append, progressWrites_append, progressWrites_map_cb,
      progressWrites_map_cr]
    rfl
  have hpw : progressWrites (runAnalysis analysisId ev)
      = [(25, "preprocessing"), (65, "mutation_analysis"),
         (85, "biomarker_identification"), (100, "results_generation")] := by
    rw [runAnalysis_eq, progressWrites_append, progressWrites_append,
      progressWrites_map_cb, progressWrites_map_cr]
    rfl
  refine ⟨?_, hpw, ?_, ?_, rfl, rfl, rfl, rfl, rfl, ?_, ?_, ?_⟩
  · have h4 : List.range 4 = [0, 1, 2, 3] := by decide
    rw [h4]
    simp only [List.map_cons, List.map_nil, h3]
    rfl
  · rw [hpw]
    norm_num [List.chain'_cons]
  · rw [hpw]
    decide
  · rw [stateAfter_four]
  · rw [stateAfter_four]
  · rw [stateAfter_four]

/-- C4 counterexample: in the write trace of a run whose evaluator returns
normally (here with zero candidates), the status-completed write does NOT
come after the persistence writes — the fixed result artifacts are persisted
after the analysis is already marked completed. -/
theorem c4_counterexample :
    completedAfterInserts (runAnalysis 1 (Except.ok [])) = false := by decide

/-- C4 amended: reaching results_generation at progress 100 triggers, in
order: the (100, results_generation) progress write, then immediately the
transition to completed, and only after that the persistence of the
evaluator's candidates followed by the persistence of the fixed
ResultArtifacts — every write after the completed write is a persistence
write. -/
theorem c4_amended_completed_before_persistence (analysisId : Int)
    (ev : Except String (List InsertBiomarker)) :
    runAnalysis analysisId ev
      = [StoreOp.updateStatus "running", StoreOp.updateProgress 25 "preprocessing",
         StoreOp.updateProgress 65 "mutation_analysis",
         StoreOp.updateProgress 85 "biomarker_identification",
         StoreOp.updateProgress 100 "results_generation",
         StoreOp.updateStatus "completed"]
        ++ (terminalBiomarkers analysisId ev).map StoreOp.createBiomarker
        ++ (sampleResults analysisId).map StoreOp.createResult
    ∧ biomarkerWrites (runAnalysis analysisId ev) = terminalBiomarkers analysisId ev
    ∧ resultWrites (runAnalysis analysisId ev) = sampleResults analysisId
    ∧ ((runAnalysis analysisId ev).drop 6).all isInsertWrite = true := by
  refine ⟨runAnalysis_eq analysisId ev, ?_, ?_, ?_⟩
  · rw [runAnalysis_eq, biomarkerWrites_append, biomarkerWrites_append,
      biomarkerWrites_map_cb, biomarkerWrites_map_cr]
    simp [biomarkerWrites, progressWrites, List.filterMap]
  · rw [runAnalysis_eq, resultWrites_append, resultWrites_append,
      resultWrites_map_cb, resultWrites_map_cr]
    simp [resultWrites, List.filterMap]
  · rw [runAnalysis_eq, List.append_assoc]
    have hd := List.drop_left
      [StoreOp.updateStatus "running",
       StoreOp.updateProgress 25 "preprocessing",
       StoreOp.updateProgress 65 "mutation_analysis",
       StoreOp.updateProgress 85 "biomarker_identification",
       StoreOp.updateProgress 100 "results_generation",
       StoreOp.updateStatus "completed"]
      ((terminalBiomarkers analysisId ev).map StoreOp.createBiomarker
        ++ (sampleResults analysisId).map StoreOp.createResult)
    simp only [List.length_cons, List.length_nil] at hd
    rw [hd, List.all_append, all_isInsertWrite_map_cb, all_isInsertWrite_map_cr]
    rfl

/-- C5: when the terminal-stage evaluator invocation throws, the run inserts
exactly the one hardcoded demonstration candidate, named BRCA1_KRS_L_17, and
the analysis still ends completed; and for every outcome the stepping logic
writes only the statuses running and completed — never failed. -/
theorem c5_evaluator_failure_masked (analysisId : Int) (e : String)
    (ev : Except String (List InsertBiomarker)) :
    biomarkerWrites (runAnalysis analysisId (Except.error e))
        = [demoMarker analysisId]
      ∧ (demoMarker analysisId).name = "BRCA1_KRS_L_17"
      ∧ stateAfter analysisId (Except.error e) 4
        = { status := "completed", progress := 100,
            currentStep := "results_generation" }
      ∧ statusWrites (runAnalysis analysisId ev) = ["running", "completed"] := by
  refine ⟨?_, rfl, stateAfter_four analysisId (Except.error e), ?_⟩
  · rw [runAnalysis_eq, biomarkerWrites_append, biomarkerWrites_append,
      biomarkerWrites_map_cb, biomarkerWrites_map_cr]
    simp [biomarkerWrites, List.filterMap, terminalBiomarkers]
  · rw [runAnalysis_eq, statusWrites_append, statusWrites_append,
      statusWrites_map_cb, statusWrites_map_cr]
    rfl

end Routes

end ProteogenomiX
